import Mathlib

/-
  Verification development for the vidp-cloud-agregation-app service.

  Shallow embedding of the video-processing microservice:
  * the range-request streaming endpoint (api/routes.py, stream_video),
  * the job-processing pipeline (api/routes.py, process_video),
  * the DynamoDB metadata store operations (services/dynamodb_service.py),
  * the FFmpeg command construction (services/ffmpeg_service.py).

  External collaborators (S3, DynamoDB, ffmpeg/ffprobe subprocesses) are
  modelled by their documented semantics: the S3 object is a byte list and
  a ranged GET returns the requested slice; the DynamoDB table is an
  association list from id to an attribute map (UpdateItem without a
  condition expression upserts); fallible external calls appear as
  oracle parameters carrying their success value or error message.
-/

namespace VidpAgg

/- ===================== Range streaming responder ===================== -/

/-- ASCII decimal digit test (codes 48..57), used to model Python `int()`
    acceptance of a digit string. -/
def isAsciiDigit (c : Char) : Bool := 48 ≤ c.toNat && c.toNat ≤ 57

/-- ASCII whitespace stripped by Python `int()` around a numeric string:
    exactly space, tab, LF, VT, FF and CR (codes 9-13 and 32; checked
    against the CPython builtin, which does not strip 0x1C-0x1F). -/
def isPySpace (c : Char) : Bool :=
  c.toNat = 32 || c.toNat = 9 || c.toNat = 10 || c.toNat = 11 || c.toNat = 12 || c.toNat = 13

/-- ASCII whitespace stripped by Python `str.strip()`: the `int()` set
    plus the separator characters 0x1C-0x1F, which `str.isspace`
    additionally treats as whitespace. -/
def isPyStrSpace (c : Char) : Bool :=
  isPySpace c || (28 ≤ c.toNat && c.toNat ≤ 31)

/-- Value of a list of decimal digit characters, most significant first. -/
def digitsToNat (l : List Char) : Nat :=
  l.foldl (fun a c => a * 10 + (c.toNat - 48)) 0

/-- The whitespace stripping Python `int()` performs on ASCII text. -/
def trimPy (l : List Char) : List Char :=
  ((l.dropWhile isPySpace).reverse.dropWhile isPySpace).reverse

/-- Python `str.strip()` on ASCII text. -/
def trimPyStr (l : List Char) : List Char :=
  ((l.dropWhile isPyStrSpace).reverse.dropWhile isPyStrSpace).reverse

/-- After the leading digit of a Python int literal, PEP 515 allows
    single underscores strictly between digits: this accepts the tail
    grammar of `digit (("_")? digit)*`, so `1_000` parses and `1__0`,
    `1_` and `_1` do not (checked against the CPython builtin). -/
def digitsTail : List Char → Bool
  | [] => true
  | c :: rest =>
    if c = '_' then
      match rest with
      | [] => false
      | d :: rest2 => isAsciiDigit d && digitsTail rest2
    else
      isAsciiDigit c && digitsTail rest

/-- Model of Python `int(s)` on an ASCII fragment produced by splitting
    the header at `-` (so the fragment cannot contain a minus sign):
    surrounding ASCII whitespace is stripped, one leading `+` is allowed,
    and the rest must be decimal digits with PEP 515 underscore grouping
    (single underscores strictly between digits, so `int("1_0")` is 10);
    anything else raises `ValueError`, modelled as `none`.  Python also
    accepts non-ASCII decimal digits and whitespace; those are outside
    this embedding, so the theorem below about parse failure restricts
    itself to ASCII start fragments. -/
def pyIntParse? (l : List Char) : Option Int :=
  let t1 := trimPy l
  let t2 := if t1.headD ' ' = '+' then t1.tail else t1
  match t2 with
  | [] => none
  | c :: rest =>
    if isAsciiDigit c && digitsTail rest then
      some ((digitsToNat ((c :: rest).filter (fun x => x ≠ '_')) : Nat) : Int)
    else none

/-- Model of `range_header.replace("bytes=", "")`: removes every
    (non-overlapping, left-to-right) occurrence of the substring `bytes=`. -/
def stripBytesEq : List Char → List Char
  | 'b' :: 'y' :: 't' :: 'e' :: 's' :: '=' :: rest => stripBytesEq rest
  | c :: rest => c :: stripBytesEq rest
  | [] => []

/-- Model of Python `str.split("-")`: split at every `-`, keeping empty
    fragments, so the result is always nonempty. -/
def splitOnDash : List Char → List (List Char)
  | [] => [[]]
  | '-' :: rest => [] :: splitOnDash rest
  | c :: rest =>
    match splitOnDash rest with
    | [] => [[c]]
    | p :: ps => (c :: p) :: ps

/-- Range header parsing exactly as in `stream_video` (api/routes.py):
    `range_match = range_header.replace("bytes=", "").split("-")`, then
    `start = int(range_match[0]) if range_match[0] else 0` and
    `end = int(range_match[1]) if len(range_match) > 1 and range_match[1]
    else file_size - 1`.  A `ValueError` from `int` is modelled as `none`. -/
def parseRange (header : String) (fileSize : Int) : Option (Int × Int) :=
  let parts := splitOnDash (stripBytesEq header.data)
  let firstPart := parts.headD []
  let start? : Option Int :=
    if firstPart = [] then some 0 else pyIntParse? firstPart
  let end? : Option Int :=
    match parts with
    | _ :: second :: _ =>
      if second = [] then some (fileSize - 1) else pyIntParse? second
    | _ => some (fileSize - 1)
  match start?, end? with
  | some s, some e => some (s, e)
  | _, _ => none

/-- Model of `S3Service.stream_file` (services/s3_service.py): an S3
    `GetObject` with header `Range: bytes=s-e` over an object of bytes
    `obj`, reading the body to exhaustion in `CHUNK_SIZE` pieces; the
    concatenation of the yielded chunks is the requested inclusive slice. -/
def s3RangeGet (obj : List Nat) (s e : Int) : List Nat :=
  (obj.drop s.toNat).take (e - s + 1).toNat

/-- Possible responses of the `/api/stream/{filename}` endpoint. -/
inductive StreamResult where
  | notFound : StreamResult
  | redirect (url : String) : StreamResult
  | error416 (detail : String) : StreamResult
  | content206 (contentRange : String) (contentLength : Int) (body : List Nat) : StreamResult
  deriving DecidableEq

/-- HTTP status code of each response shape. -/
def StreamResult.httpStatus : StreamResult → Nat
  | .notFound => 404
  | .redirect _ => 302
  | .error416 _ => 416
  | .content206 _ _ _ => 206

/-- Model of `stream_video` (api/routes.py).  The S3 object is `obj?` (`none` when
    `file_exists`/`get_file_size` report no such key, collapsing the two
    lookups of the source into one); `presignedUrl` is the value returned
    by `S3Service.get_presigned_url` for the key. -/
def stream_video (obj? : Option (List Nat)) (presignedUrl : String)
    (rangeHeader : Option String) : StreamResult :=
  match obj? with
  | none => .notFound
  | some obj =>
    match rangeHeader with
    | none => .redirect presignedUrl
    | some h =>
      let fileSize : Int := (obj.length : Int)
      match parseRange h fileSize with
      | none => .error416 "Invalid range format"
      | some (s, e) =>
        if s ≥ fileSize ∨ e ≥ fileSize ∨ s > e then .error416 "Invalid range"
        else
          .content206
            ("bytes " ++ toString s ++ "-" ++ toString e ++ "/" ++ toString fileSize)
            (e - s + 1)
            (s3RangeGet obj s e)

/- ===================== FFmpeg service ===================== -/

/-- Substring test on character lists, modelling Python `needle in haystack`. -/
def listContainsSub (needle : List Char) : List Char → Bool
  | [] => needle.isEmpty
  | c :: rest => needle.isPrefixOf (c :: rest) || listContainsSub needle rest

/-- Model of `FFmpegService._validate_srt_content`: read (up to) the first 1024
    characters, strip whitespace; an empty result, or JSON-looking content
    (starts with a brace and mentions a status key), means "no usable
    subtitles" and the video is processed without a subtitle track. -/
def validateSrtContent (content : String) : Bool :=
  let c := trimPyStr (content.data.take 1024)
  if c = [] then false
  else if "\x7b".data.isPrefixOf c && listContainsSub "\"status\":".data c then false
  else true

/-- The argument vector `FFmpegService.burn_subtitles` hands to ffmpeg.
    When the SRT content validates, the video filter burns the subtitles
    (with the hard-coded force_style) and scales; otherwise the filter is
    scaling only.  `filterSrtPath` is the escaped temp-file path the source
    computes for the subtitles filter. -/
def buildBurnCmd (videoPath srtContent filterSrtPath outputPath resolution : String)
    (crf : Nat) (preset codec : String) : List String :=
  if validateSrtContent srtContent then
    ["ffmpeg", "-y", "-i", videoPath, "-vf",
      "subtitles=\x27" ++ filterSrtPath ++
        "\x27:force_style=\x27Fontsize=24,PrimaryColour=&H00FFFFFF,BackColour=&H80000000,BorderStyle=3\x27,scale="
        ++ resolution,
      "-c:v", codec, "-crf", toString crf, "-preset", preset,
      "-c:a", "aac", "-b:a", "128k", outputPath]
  else
    ["ffmpeg", "-y", "-i", videoPath, "-vf", "scale=" ++ resolution,
      "-c:v", codec, "-crf", toString crf, "-preset", preset,
      "-c:a", "aac", "-b:a", "128k", outputPath]

/-- Raw data a successful ffprobe run yields (format duration and size,
    first video stream dimensions and codec). -/
structure ProbeData where
  duration : Rat
  size : Int
  width : Int
  height : Int
  codec : Option String
  deriving DecidableEq

/-- Dictionary returned by `FFmpegService.get_video_metadata`. -/
structure VideoInfo where
  duration : Rat
  size : Int
  resolution : String
  codec : Option String
  deriving DecidableEq

/-- Model of `FFmpegService.get_video_metadata`: the whole ffprobe invocation and
    its JSON parsing sit under `try ... except Exception`, so any failure
    (`probe = none`) produces the fixed fallback dictionary and the
    function never raises. -/
def get_video_metadata (probe : Option ProbeData) : VideoInfo :=
  match probe with
  | some p =>
    { duration := p.duration, size := p.size,
      resolution := toString p.width ++ "x" ++ toString p.height,
      codec := p.codec }
  | none =>
    { duration := 0, size := 0, resolution := "unknown", codec := some "unknown" }

/- ===================== Video models and DynamoDB service ===================== -/

/-- Model of `VideoStatus` (models/video.py). -/
inductive VideoStatus where
  | pending | processing | saved | failed
  deriving DecidableEq

/-- A DynamoDB item for the videos table: a map of optional attributes
    (an absent attribute is `none`; `_serialize_item` skips `None` values,
    so a Python `None` never becomes a stored attribute).  The `id`
    attribute is kept as the association-list key alongside the item. -/
structure DynItem where
  filename : Option String := none
  file_path : Option String := none
  s3_key : Option String := none
  link : Option String := none
  status : Option VideoStatus := none
  file_size : Option Int := none
  duration : Option Rat := none
  resolution : Option String := none
  detected_language : Option String := none
  animals_detected : Option (List (String × Nat)) := none
  error_message : Option String := none
  source_video_id : Option String := none
  created_at : Option Nat := none
  updated_at : Option Nat := none
  deriving DecidableEq

/-- Model of `VideoMetadata` (models/video.py) restricted to the fields the service
    logic reads; `filename`, `file_path` and `link` are required by the
    pydantic model, `status` defaults to PENDING, the rest are optional.
    The timestamp fields (defaulted by pydantic) are omitted. -/
structure VideoMetadata where
  id : String
  filename : String
  file_path : String
  s3_key : Option String
  link : String
  status : VideoStatus
  file_size : Option Int
  duration : Option Rat
  resolution : Option String
  detected_language : Option String
  animals_detected : Option (List (String × Nat))
  error_message : Option String
  deriving DecidableEq

/-- Model of `VideoCreateRequest` (models/video.py). -/
structure VideoCreateRequest where
  filename : String
  file_path : String
  link : String
  s3_key : Option String := none
  status : VideoStatus := .pending
  file_size : Option Int := none
  source_video_id : Option String := none
  detected_language : Option String := none
  animals_detected : Option (List (String × Nat)) := none

/-- Model of `VideoUpdateRequest` (models/video.py): every field optional, `none`
    meaning "not supplied". -/
structure VideoUpdateRequest where
  status : Option VideoStatus := none
  error_message : Option String := none
  file_size : Option Int := none
  duration : Option Rat := none
  resolution : Option String := none
  link : Option String := none
  s3_key : Option String := none
  detected_language : Option String := none
  animals_detected : Option (List (String × Nat)) := none
  deriving DecidableEq

/-- Lookup by primary key in the table. -/
def findItem : List (String × DynItem) → String → Option DynItem
  | [], _ => none
  | (k, v) :: rest, id => if k = id then some v else findItem rest id

/-- Remove a key from the table. -/
def eraseItem : List (String × DynItem) → String → List (String × DynItem)
  | [], _ => []
  | (k, v) :: rest, id => if k = id then eraseItem rest id else (k, v) :: eraseItem rest id

/-- Store an item under a key (DynamoDB keys are unique, so the old
    binding, if any, is replaced). -/
def putItem (t : List (String × DynItem)) (id : String) (it : DynItem) :
    List (String × DynItem) :=
  (id, it) :: eraseItem t id

/-- One attribute of a DynamoDB `SET` update: a supplied value replaces
    the stored one, an absent value leaves it unchanged. -/
def mergeField {α : Type} (new old : Option α) : Option α :=
  match new with
  | some v => some v
  | none => old

/-- Apply the `SET` expression `DynamoDBService.update_video` builds from
    the non-None fields of the patch, plus the unconditional
    `updated_at = now` it always adds. -/
def applyUpdate (it : DynItem) (u : VideoUpdateRequest) (now : Nat) : DynItem :=
  { it with
    status := mergeField u.status it.status,
    error_message := mergeField u.error_message it.error_message,
    file_size := mergeField u.file_size it.file_size,
    duration := mergeField u.duration it.duration,
    resolution := mergeField u.resolution it.resolution,
    link := mergeField u.link it.link,
    s3_key := mergeField u.s3_key it.s3_key,
    detected_language := mergeField u.detected_language it.detected_language,
    animals_detected := mergeField u.animals_detected it.animals_detected,
    updated_at := some now }

/-- Whether the patch supplies at least one field (`update_dict` nonempty
    after dropping `None` values). -/
def updateHasField (u : VideoUpdateRequest) : Bool :=
  u.status.isSome || u.error_message.isSome || u.file_size.isSome || u.duration.isSome ||
  u.resolution.isSome || u.link.isSome || u.s3_key.isSome || u.detected_language.isSome ||
  u.animals_detected.isSome

/-- Model of `VideoMetadata(**item)`: pydantic validation requires `filename`,
    `file_path` and `link`; a missing required field raises
    `ValidationError`, modelled as `none`. -/
def mkVideoMetadata? (id : String) (it : DynItem) : Option VideoMetadata :=
  match it.filename, it.file_path, it.link with
  | some fn, some fp, some lk =>
    some { id := id, filename := fn, file_path := fp, s3_key := it.s3_key,
           link := lk, status := it.status.getD .pending, file_size := it.file_size,
           duration := it.duration, resolution := it.resolution,
           detected_language := it.detected_language,
           animals_detected := it.animals_detected,
           error_message := it.error_message }
  | _, _, _ => none

/-- Result of a metadata-store call: either a value or an uncaught
    pydantic `ValidationError`. -/
inductive DbResult (α : Type) where
  | ok (a : α)
  | validationError
  deriving DecidableEq

/-- Model of `DynamoDBService.get_video`. -/
def get_video (table : List (String × DynItem)) (id : String) :
    DbResult (Option VideoMetadata) :=
  match findItem table id with
  | none => .ok none
  | some it =>
    match mkVideoMetadata? id it with
    | some m => .ok (some m)
    | none => .validationError

/-- Outcome of `DynamoDBService.update_video`: the table afterwards and
    the returned value (or raised validation error). -/
structure UpdateOutcome where
  table : List (String × DynItem)
  result : DbResult (Option VideoMetadata)
  deriving DecidableEq

/-- Model of `DynamoDBService.update_video`.  An all-None patch short-circuits to
    `get_video`.  Otherwise an `UpdateItem` with a `SET` expression and no
    condition expression runs: per DynamoDB semantics this updates the
    existing item or, for an unknown id, creates a fresh item holding only
    the key and the SET attributes (an upsert).  `ReturnValues="ALL_NEW"`
    always yields the resulting item, which is fed to
    `VideoMetadata(**item)`. -/
def update_video (table : List (String × DynItem)) (id : String)
    (u : VideoUpdateRequest) (now : Nat) : UpdateOutcome :=
  if updateHasField u = false then
    { table := table, result := get_video table id }
  else
    match findItem table id with
    | some it =>
      let it' := applyUpdate it u now
      { table := putItem table id it',
        result := match mkVideoMetadata? id it' with
          | some m => .ok (some m)
          | none => .validationError }
    | none =>
      let it' := applyUpdate {} u now
      { table := putItem table id it',
        result := match mkVideoMetadata? id it' with
          | some m => .ok (some m)
          | none => .validationError }

/-- Model of `DynamoDBService.create_video`: build the item from the request plus
    generated id and timestamps, substituting the `"NONE"` placeholder for
    a falsy `source_video_id`, drop `None` attributes, `PutItem` it, and
    return a `VideoMetadata` assembled directly from the request (the
    source omits `s3_key` in that constructor call). -/
def create_video (table : List (String × DynItem)) (req : VideoCreateRequest)
    (newId : String) (now : Nat) : List (String × DynItem) × VideoMetadata :=
  let svid : String :=
    match req.source_video_id with
    | some s => if s = "" then "NONE" else s
    | none => "NONE"
  let it : DynItem :=
    { filename := some req.filename, file_path := some req.file_path,
      s3_key := req.s3_key, link := some req.link, status := some req.status,
      file_size := req.file_size, detected_language := req.detected_language,
      animals_detected := req.animals_detected, source_video_id := some svid,
      created_at := some now, updated_at := some now }
  (putItem table newId it,
   { id := newId, filename := req.filename, file_path := req.file_path,
     s3_key := none, link := req.link, status := req.status,
     file_size := req.file_size, duration := none, resolution := none,
     detected_language := none, animals_detected := none, error_message := none })

/-- Model of `DynamoDBService.delete_video`: `DeleteItem` with
    `ReturnValues="ALL_OLD"`; the boolean reports whether an item existed. -/
def db_delete_video (table : List (String × DynItem)) (id : String) :
    List (String × DynItem) × Bool :=
  match findItem table id with
  | some _ => (eraseItem table id, true)
  | none => (table, false)

/- ===================== API routes ===================== -/

/-- Result of a route handler: a value, an `HTTPException` with status
    code and detail, or an exception that escapes the handler unturned. -/
inductive RouteOutcome (α : Type) where
  | ok (a : α)
  | httpError (code : Nat) (detail : String)
  | exn
  deriving DecidableEq

/-- State after running the `DELETE /api/videos/{video_id}` handler:
    metadata table, S3 store (key to bytes), and whether an S3
    `delete_object` call was issued at all. -/
structure DeleteOutcome where
  result : RouteOutcome String
  table : List (String × DynItem)
  s3 : List (String × List Nat)
  blobDeleteAttempted : Bool
  deriving DecidableEq

/-- Remove a key from the S3 store. -/
def s3Erase : List (String × List Nat) → String → List (String × List Nat)
  | [], _ => []
  | (k, v) :: rest, key => if k = key then s3Erase rest key else (k, v) :: s3Erase rest key

/-- Model of `delete_video` (api/routes.py): look the record up (404 when absent,
    touching nothing); if it has an S3 key, attempt the blob deletion,
    logging and swallowing any failure (`s3ok = false` leaves the store
    untouched); then delete the metadata item, answering 404 if it had
    vanished, else success. -/
def delete_video_route (table : List (String × DynItem)) (s3 : List (String × List Nat))
    (id : String) (s3ok : Bool) : DeleteOutcome :=
  match get_video table id with
  | .validationError => { result := .exn, table := table, s3 := s3, blobDeleteAttempted := false }
  | .ok none =>
    { result := .httpError 404 "Video not found", table := table, s3 := s3,
      blobDeleteAttempted := false }
  | .ok (some video) =>
    let (s3', attempted) :=
      match video.s3_key with
      | some key => (if s3ok then s3Erase s3 key else s3, true)
      | none => (s3, false)
    let (table', deleted) := db_delete_video table id
    if deleted then
      { result := .ok ("Video " ++ id ++ " deleted successfully"), table := table',
        s3 := s3', blobDeleteAttempted := attempted }
    else
      { result := .httpError 404 "Video metadata not found", table := table',
        s3 := s3', blobDeleteAttempted := attempted }

/- ===================== Job orchestrator (process_video) ===================== -/

/-- Per-request environment of `process_video`: the generated identifiers
    and timestamps, and the outcome of each fallible external call
    (an `Except` carries the failure's message). -/
structure PipelineEnv where
  jobId : String
  recordId : String
  now : Nat
  sizeOk : Bool
  burn : Except String Unit
  upload : Except String String
  probe : Option ProbeData
  presign : Except String String

/-- Client inputs of `POST /api/process-video/` (the upload sizes and form
    fields; `crf` is bounded 0..51 by FastAPI before the handler runs). -/
structure ProcessRequest where
  videoSize : Nat
  srtContent : String
  resolution : String
  crf : Nat
  source_video_id : Option String := none
  original_filename : Option String := none
  uploadedFilename : String := "upload.mp4"
  detected_language : Option String := none
  animals_detected : Option (List (String × Nat)) := none

/-- The parts of the success payload of `process_video` that the
    specification constrains. -/
structure ProcessResponse where
  video_id : String
  streaming_url : String
  resolution : String
  duration : Rat
  file_size : Int
  deriving DecidableEq

/-- Observable outcome of one `process_video` request. -/
structure PipelineOutcome where
  result : RouteOutcome ProcessResponse
  table : List (String × DynItem)
  recordCreated : Bool
  cleanupRan : Bool
  burnArgs : Option (String × Nat)
  deriving DecidableEq

/-- The fixed resolution table of `process_video`. -/
def resolution_map : List (String × String) :=
  [("1080p", "1920x1080"), ("720p", "1280x720"), ("480p", "854x480"), ("360p", "640x360")]

/-- Model of `resolution_map.get(resolution, "640x360")`. -/
def targetResolution (r : String) : String :=
  match resolution_map.lookup r with
  | some d => d
  | none => "640x360"

/-- Python truthiness filter on an optional string (`if detected_language:`). -/
def pyTruthyStr (o : Option String) : Option String :=
  match o with
  | some s => if s = "" then none else some s
  | none => none

/-- Python truthiness filter on an optional dict (`if animals_dict:`). -/
def pyTruthyDict (o : Option (List (String × Nat))) : Option (List (String × Nat)) :=
  match o with
  | some l => if l = [] then none else some l
  | none => none

/-- The DynamoDB item `process_video` creates for a job: status
    PROCESSING, the uploaded file's size, job-scoped names, the `"NONE"`
    placeholder for a falsy source id. -/
def createdItem (env : PipelineEnv) (req : ProcessRequest) : DynItem :=
  { filename := some (match req.original_filename with
                      | some f => f
                      | none => req.uploadedFilename),
    file_path := some ("s3://vidp-video-storage/videos/" ++ (env.jobId ++ "_final.mp4")),
    s3_key := some (env.jobId ++ "_final.mp4"),
    link := some ("/api/stream/" ++ (env.jobId ++ "_final.mp4")),
    status := some VideoStatus.processing,
    file_size := some (req.videoSize : Int),
    source_video_id := some (match req.source_video_id with
                             | some s => if s = "" then "NONE" else s
                             | none => "NONE"),
    created_at := some env.now, updated_at := some env.now }

/-- The SAVED patch `process_video` applies after a successful run:
    probed size, duration and resolution, the presigned link, and the
    truthy enrichment fields. -/
def savedUpdate (env : PipelineEnv) (req : ProcessRequest) (url : String) :
    VideoUpdateRequest :=
  { status := some VideoStatus.saved,
    file_size := some (get_video_metadata env.probe).size,
    duration := some (get_video_metadata env.probe).duration,
    resolution := some (get_video_metadata env.probe).resolution,
    link := some url,
    s3_key := some (env.jobId ++ "_final.mp4"),
    detected_language := pyTruthyStr req.detected_language,
    animals_detected := pyTruthyDict req.animals_detected }

/-- The FAILED update plus cleanup that both `except` arms of
    `process_video` perform once a record exists, before re-raising.  If
    that update itself raised, `cleanup_files` would be skipped and the
    exception would escape (`exn`). -/
def failRecord (table : List (String × DynItem)) (recordId : String) (now : Nat)
    (msg : String) (errResult : RouteOutcome ProcessResponse)
    (burnArgs : Option (String × Nat)) : PipelineOutcome :=
  let o := update_video table recordId
    { status := some .failed, error_message := some msg } now
  match o.result with
  | .validationError =>
    { result := .exn, table := o.table, recordCreated := true,
      cleanupRan := false, burnArgs := burnArgs }
  | .ok _ =>
    { result := errResult, table := o.table, recordCreated := true,
      cleanupRan := true, burnArgs := burnArgs }

/-- Tail of the success path of `process_video`: inspect the outcome of
    the SAVED update; a raised validation error there is caught by the
    outer `except Exception` arm (which marks the record FAILED), while a
    normal return produces the 200 payload. -/
def finishSuccess (o : UpdateOutcome) (recordId : String) (now : Nat) (url : String)
    (info : VideoInfo) (args : Option (String × Nat)) : PipelineOutcome :=
  match o.result with
  | .validationError =>
    failRecord o.table recordId now "validation error"
      (.httpError 500 "Processing failed: validation error") args
  | .ok _ =>
    { result := .ok { video_id := recordId, streaming_url := url,
                      resolution := info.resolution, duration := info.duration,
                      file_size := info.size },
      table := o.table, recordCreated := true, cleanupRan := true,
      burnArgs := args }

/-- Model of `process_video` (api/routes.py).  Steps: save the upload (checking the
    size limit before any record exists), save the SRT, create the record
    with status PROCESSING and the uploaded file's size, burn subtitles at
    the mapped target resolution, upload to S3, probe the result
    (never-raising), presign a streaming URL, update the record to SAVED
    with the probed properties, schedule cleanup and answer success.  An
    `HTTPException` before the record exists is re-raised after cleanup
    only; any failure after creation goes through `failRecord`. -/
def process_video (env : PipelineEnv) (req : ProcessRequest)
    (table0 : List (String × DynItem)) : PipelineOutcome :=
  if env.sizeOk = false then
    { result := .httpError 413 "File size exceeds maximum allowed size",
      table := table0, recordCreated := false, cleanupRan := true, burnArgs := none }
  else
    let finalFilename := env.jobId ++ "_final.mp4"
    let streamingUrl := "/api/stream/" ++ finalFilename
    let createReq : VideoCreateRequest :=
      { filename := (match req.original_filename with
                     | some f => f
                     | none => req.uploadedFilename),
        file_path := "s3://vidp-video-storage/videos/" ++ finalFilename,
        s3_key := some finalFilename,
        link := streamingUrl,
        status := .processing,
        file_size := some (req.videoSize : Int),
        source_video_id := req.source_video_id }
    let (table1, _meta) := create_video table0 createReq env.recordId env.now
    let args : Option (String × Nat) := some (targetResolution req.resolution, req.crf)
    match env.burn with
    | .error msg =>
      failRecord table1 env.recordId env.now msg
        (.httpError 500 ("Processing failed: " ++ msg)) args
    | .ok _ =>
      match env.upload with
      | .error msg =>
        failRecord table1 env.recordId env.now msg
          (.httpError 500 ("Processing failed: " ++ msg)) args
      | .ok _s3uri =>
        let info := get_video_metadata env.probe
        match env.presign with
        | .error msg =>
          failRecord table1 env.recordId env.now msg
            (.httpError 500 ("Processing failed: " ++ msg)) args
        | .ok url =>
          let upd : VideoUpdateRequest :=
            { status := some .saved,
              file_size := some info.size,
              duration := some info.duration,
              resolution := some info.resolution,
              link := some url,
              s3_key := some finalFilename,
              detected_language := pyTruthyStr req.detected_language,
              animals_detected := pyTruthyDict req.animals_detected }
          finishSuccess (update_video table1 env.recordId upd env.now)
            env.recordId env.now url info args

/- ===================== Helper lemmas ===================== -/

theorem stripBytesEq_cons_ne (c : Char) (rest : List Char) (hc : c ≠ 'b') :
    stripBytesEq (c :: rest) = c :: stripBytesEq rest := by
  rw [stripBytesEq.eq_def]
  split
  · next rest' heq =>
    exfalso
    apply hc
    injection heq with h1 _
  · next c' rest' _ heq =>
    injection heq with h1 h2
    subst h1; subst h2; rfl
  · next heq => simp at heq

theorem stripBytesEq_of_no_b (l : List Char) (h : 'b' ∉ l) : stripBytesEq l = l := by
  induction l with
  | nil => rfl
  | cons c rest ih =>
    have hc : c ≠ 'b' := fun hb => h (hb ▸ List.mem_cons_self c rest)
    rw [stripBytesEq_cons_ne c rest hc, ih (fun hm => h (List.mem_cons_of_mem c hm))]

theorem splitOnDash_cons_ne (c : Char) (rest : List Char) (hc : c ≠ '-') :
    splitOnDash (c :: rest) =
      (match splitOnDash rest with
       | [] => [[c]]
       | p :: ps => (c :: p) :: ps) := by
  rw [splitOnDash.eq_def]
  split
  · next heq => simp at heq
  · next rest' heq =>
    exfalso
    apply hc
    injection heq with h1 _
  · next c' rest' _ heq =>
    injection heq with h1 h2
    subst h1; subst h2; rfl

theorem splitOnDash_ne_nil (l : List Char) : splitOnDash l ≠ [] := by
  induction l with
  | nil => simp [splitOnDash]
  | cons c rest ih =>
    by_cases hc : c = '-'
    · subst hc
      simp [splitOnDash]
    · rw [splitOnDash_cons_ne c rest hc]
      cases h : splitOnDash rest with
      | nil => simp
      | cons p ps => simp

theorem splitOnDash_no_dash (l : List Char) (h : '-' ∉ l) : splitOnDash l = [l] := by
  induction l with
  | nil => rfl
  | cons c rest ih =>
    have hc : c ≠ '-' := fun hd => h (hd ▸ List.mem_cons_self c rest)
    rw [splitOnDash_cons_ne c rest hc, ih (fun hm => h (List.mem_cons_of_mem c hm))]

theorem splitOnDash_append_dash (a m : List Char) (h : '-' ∉ a) :
    splitOnDash (a ++ '-' :: m) = a :: splitOnDash m := by
  induction a with
  | nil => simp [splitOnDash]
  | cons c rest ih =>
    have hc : c ≠ '-' := fun hd => h (hd ▸ List.mem_cons_self c rest)
    have ih' := ih (fun hm => h (List.mem_cons_of_mem c hm))
    rw [List.cons_append, splitOnDash_cons_ne c (rest ++ '-' :: m) hc, ih']

theorem digit_ne_b (c : Char) (h : isAsciiDigit c = true) : c ≠ 'b' := by
  intro hb
  subst hb
  simp [isAsciiDigit] at h

theorem digit_ne_dash (c : Char) (h : isAsciiDigit c = true) : c ≠ '-' := by
  intro hb
  subst hb
  simp [isAsciiDigit] at h

theorem digit_not_space (c : Char) (h : isAsciiDigit c = true) : isPySpace c = false := by
  unfold isAsciiDigit at h
  unfold isPySpace
  simp only [Bool.and_eq_true, decide_eq_true_eq] at h
  simp only [Bool.or_eq_false_iff, decide_eq_false_iff_not]
  omega

theorem all_digits_no_b (l : List Char) (h : l.all isAsciiDigit = true) : 'b' ∉ l := by
  intro hm
  have := List.all_eq_true.mp h _ hm
  simp [isAsciiDigit] at this

theorem all_digits_no_dash (l : List Char) (h : l.all isAsciiDigit = true) : '-' ∉ l := by
  intro hm
  have := List.all_eq_true.mp h _ hm
  simp [isAsciiDigit] at this

theorem dropWhile_space_of_digits (l : List Char) (h : l.all isAsciiDigit = true) :
    l.dropWhile isPySpace = l := by
  cases l with
  | nil => rfl
  | cons c rest =>
    have hc : isAsciiDigit c = true := by
      have := List.all_eq_true.mp h c (List.mem_cons_self c rest)
      simpa using this
    rw [List.dropWhile_cons, digit_not_space c hc]
    simp

theorem digit_ne_underscore (c : Char) (h : isAsciiDigit c = true) : c ≠ '_' := by
  intro hb
  subst hb
  simp [isAsciiDigit] at h

theorem all_digits_digitsTail (l : List Char) (h : l.all isAsciiDigit = true) :
    digitsTail l = true := by
  induction l with
  | nil => rfl
  | cons c rest ih =>
    rw [List.all_cons, Bool.and_eq_true] at h
    rw [digitsTail.eq_def]
    dsimp only
    rw [if_neg (digit_ne_underscore c h.1), h.1, ih h.2]
    rfl

theorem all_digits_filter_underscore (l : List Char) (h : l.all isAsciiDigit = true) :
    l.filter (fun x => x ≠ '_') = l := by
  rw [List.filter_eq_self]
  intro a ha
  have := List.all_eq_true.mp h a ha
  simpa using digit_ne_underscore a (by simpa using this)

theorem pyIntParse_digits (l : List Char) (hne : l ≠ []) (hd : l.all isAsciiDigit = true) :
    pyIntParse? l = some ((digitsToNat l : Nat) : Int) := by
  have hrev : l.reverse.all isAsciiDigit = true := by
    rw [List.all_eq_true] at hd ⊢
    intro c hc
    exact hd c (List.mem_reverse.mp hc)
  have h1 : l.dropWhile isPySpace = l := dropWhile_space_of_digits l hd
  have h2 : l.reverse.dropWhile isPySpace = l.reverse := dropWhile_space_of_digits _ hrev
  have hhead : l.headD ' ' ≠ '+' := by
    cases l with
    | nil => exact absurd rfl hne
    | cons c rest =>
      have hc : isAsciiDigit c = true := by
        have := List.all_eq_true.mp hd c (List.mem_cons_self c rest)
        simpa using this
      simp only [List.headD_cons]
      intro hp
      subst hp
      simp [isAsciiDigit] at hc
  unfold pyIntParse? trimPy
  simp only [h1, h2, List.reverse_reverse, if_neg hhead]
  cases l with
  | nil => exact absurd rfl hne
  | cons c rest =>
    have hc : isAsciiDigit c = true := by
      have := List.all_eq_true.mp hd c (List.mem_cons_self c rest)
      simpa using this
    have hrest : rest.all isAsciiDigit = true := by
      have hcons := hd
      rw [List.all_cons, Bool.and_eq_true] at hcons
      exact hcons.2
    dsimp only
    rw [hc, all_digits_digitsTail rest hrest, all_digits_filter_underscore (c :: rest) hd]
    rfl

/- ===================== Claim theorems ===================== -/

theorem stripBytesEq_bytes (l : List Char) :
    stripBytesEq ('b' :: 'y' :: 't' :: 'e' :: 's' :: '=' :: l) = stripBytesEq l := by
  rfl

theorem splitOnDash_dash (l : List Char) :
    splitOnDash ('-' :: l) = [] :: splitOnDash l := by
  rfl

/-- C3 counterexample: the Range header `bytes=-5`, which has no numeric
    start, is not rejected with 416; the endpoint treats the missing start
    as 0 and serves bytes 0..5 as partial content. -/
theorem range_no_start_counterexample :
    stream_video (some [0, 1, 2, 3, 4, 5, 6, 7, 8, 9]) "u" (some "bytes=-5") =
      .content206 "bytes 0-5/10" 6 [0, 1, 2, 3, 4, 5] ∧
    (stream_video (some [0, 1, 2, 3, 4, 5, 6, 7, 8, 9]) "u" (some "bytes=-5")).httpStatus ≠ 416 := by
  exact ⟨by decide, by decide⟩

/-- C3 (amended): the stream endpoint parses `bytes=<start>-<end>`, where
    an omitted end bound means "start to end of file" and an omitted start
    bound is treated as 0 (so `bytes=-500` is accepted as the range 0..500,
    not a parse failure); a header whose start text is present (and ASCII,
    the scope on which the `int()` embedding is exact — Python additionally
    accepts non-ASCII decimal digits) but is not a valid Python int
    literal — decimal digits with optional PEP 515 underscore grouping,
    optional surrounding whitespace and one leading plus — is a parse
    failure answered with 416 RangeNotSatisfiable. -/
theorem range_header_parse_form :
    (∀ (n : Int) (ds : List Char), ds ≠ [] → ds.all isAsciiDigit = true →
      parseRange (String.mk ('b' :: 'y' :: 't' :: 'e' :: 's' :: '=' :: (ds ++ ['-']))) n =
        some (((digitsToNat ds : Nat) : Int), n - 1)) ∧
    (∀ (n : Int) (ds : List Char), ds ≠ [] → ds.all isAsciiDigit = true →
      parseRange (String.mk ('b' :: 'y' :: 't' :: 'e' :: 's' :: '=' :: '-' :: ds)) n =
        some (0, ((digitsToNat ds : Nat) : Int))) ∧
    (∀ (obj : List Nat) (url : String) (a b : List Char),
      a ≠ [] → a.all (fun c => c.toNat < 128) = true → pyIntParse? a = none → '-' ∉ a →
      stripBytesEq (a ++ '-' :: b) = a ++ '-' :: b →
      stream_video (some obj) url
          (some (String.mk ('b' :: 'y' :: 't' :: 'e' :: 's' :: '=' :: (a ++ '-' :: b)))) =
        .error416 "Invalid range format") := by
  refine ⟨?_, ?_, ?_⟩
  · intro n ds hne hd
    have hnob : 'b' ∉ ds ++ ['-'] := by
      intro hm
      rcases List.mem_append.mp hm with h | h
      · exact all_digits_no_b ds hd h
      · simp at h
    unfold parseRange
    dsimp only
    rw [stripBytesEq_bytes, stripBytesEq_of_no_b _ hnob,
      splitOnDash_append_dash ds [] (all_digits_no_dash ds hd)]
    dsimp only [splitOnDash, List.headD]
    simp [hne, pyIntParse_digits ds hne hd]
  · intro n ds hne hd
    have hdashb : ('-' : Char) ≠ 'b' := by decide
    unfold parseRange
    dsimp only
    rw [stripBytesEq_bytes, stripBytesEq_cons_ne '-' ds hdashb,
      stripBytesEq_of_no_b ds (all_digits_no_b ds hd),
      splitOnDash_dash, splitOnDash_no_dash ds (all_digits_no_dash ds hd)]
    dsimp only [List.headD]
    simp [hne, pyIntParse_digits ds hne hd]
  · intro obj url a b hne _hascii hparse hnd hstrip
    have hpr : parseRange (String.mk ('b' :: 'y' :: 't' :: 'e' :: 's' :: '=' :: (a ++ '-' :: b)))
        ((obj.length : Nat) : Int) = none := by
      unfold parseRange
      dsimp only
      rw [stripBytesEq_bytes, hstrip, splitOnDash_append_dash a b hnd]
      dsimp only [List.headD]
      rw [if_neg hne, hparse]
    unfold stream_video
    dsimp only
    rw [hpr]

/-- Witness for the amended C3 at concrete headers. -/
theorem range_header_parse_form_witness :
    parseRange (String.mk ['b', 'y', 't', 'e', 's', '=', '7', '-']) 10 = some (7, 9) ∧
    parseRange (String.mk ['b', 'y', 't', 'e', 's', '=', '-', '5']) 10 = some (0, 5) ∧
    stream_video (some [1, 2, 3]) "u"
        (some (String.mk ['b', 'y', 't', 'e', 's', '=', 'x', '-', '2'])) =
      .error416 "Invalid range format" := by
  refine ⟨?_, ?_, ?_⟩
  · have h := range_header_parse_form.1 10 ['7'] (by decide) (by decide)
    simpa using h
  · have h := range_header_parse_form.2.1 10 ['5'] (by decide) (by decide)
    simpa using h
  · have h := range_header_parse_form.2.2 [1, 2, 3] "u" ['x'] ['2']
      (by decide) (by decide) (by decide) (by decide) (by decide)
    simpa using h

/-- C8 counterexample: a request for an existing object with no Range
    header is answered with a 302 redirect to the presigned URL, not with
    a 200 full-body response carrying the object's length. -/
theorem no_range_counterexample :
    stream_video (some [1, 2, 3]) "presigned-url" none = .redirect "presigned-url" ∧
    (stream_video (some [1, 2, 3]) "presigned-url" none).httpStatus = 302 := by
  exact ⟨by decide, by decide⟩

/-- C8 (amended): for every existing object, a request with no Range
    header is answered with a 302 redirect to a presigned URL for the
    object; no body is streamed by the service in that case. -/
theorem no_range_redirects (obj : List Nat) (url : String) :
    stream_video (some obj) url none = .redirect url ∧
    (stream_video (some obj) url none).httpStatus = 302 := by
  exact ⟨rfl, rfl⟩

/-- C9: deleting an id with no record answers 404 and has no side
    effects: the metadata table and the blob store are untouched and no
    blob deletion is even attempted. -/
theorem delete_missing_id_no_side_effects (table : List (String × DynItem))
    (s3 : List (String × List Nat)) (id : String) (s3ok : Bool)
    (habs : findItem table id = none) :
    delete_video_route table s3 id s3ok =
      { result := .httpError 404 "Video not found", table := table, s3 := s3,
        blobDeleteAttempted := false } := by
  unfold delete_video_route get_video
  rw [habs]

/-- Witness for C9 on an empty table. -/
theorem delete_missing_id_no_side_effects_witness :
    delete_video_route [] [("k", [1, 2])] "ghost" true =
      { result := .httpError 404 "Video not found", table := [], s3 := [("k", [1, 2])],
        blobDeleteAttempted := false } :=
  delete_missing_id_no_side_effects [] [("k", [1, 2])] "ghost" true rfl

/-- C6 (evaluation at the failing input): updating a nonexistent id with a
    non-empty patch is not a no-op returning absent — the conditionless
    DynamoDB `UpdateItem` upserts a fresh partial item under that id, and
    building `VideoMetadata` from it then raises a validation error
    because the required fields are missing. -/
theorem update_missing_id_upserts :
    (findItem (update_video [] "missing-id"
        { status := some .failed, error_message := some "boom" } 5).table
      "missing-id").isSome = true ∧
    (update_video [] "missing-id"
        { status := some .failed, error_message := some "boom" } 5).result =
      .validationError := by
  exact ⟨by decide, by decide⟩

theorem findItem_putItem (t : List (String × DynItem)) (id : String) (it : DynItem) :
    findItem (putItem t id it) id = some it := by
  simp [putItem, findItem]

theorem mergeField_isSome {α : Type} (new old : Option α) (h : old.isSome = true) :
    (mergeField new old).isSome = true := by
  cases new with
  | none => exact h
  | some v => rfl

theorem mkVideoMetadata_isSome (id : String) (it : DynItem)
    (h1 : it.filename.isSome = true) (h2 : it.file_path.isSome = true)
    (h3 : it.link.isSome = true) : ∃ m, mkVideoMetadata? id it = some m := by
  obtain ⟨fn, hfn⟩ := Option.isSome_iff_exists.mp h1
  obtain ⟨fp, hfp⟩ := Option.isSome_iff_exists.mp h2
  obtain ⟨lk, hlk⟩ := Option.isSome_iff_exists.mp h3
  exact ⟨{ id := id, filename := fn, file_path := fp, s3_key := it.s3_key, link := lk,
           status := it.status.getD .pending, file_size := it.file_size,
           duration := it.duration, resolution := it.resolution,
           detected_language := it.detected_language,
           animals_detected := it.animals_detected,
           error_message := it.error_message },
         by unfold mkVideoMetadata?; rw [hfn, hfp, hlk]⟩

theorem update_video_existing_ok (t : List (String × DynItem)) (id : String) (it : DynItem)
    (u : VideoUpdateRequest) (now : Nat)
    (hu : updateHasField u = true) (hfind : findItem t id = some it)
    (h1 : it.filename.isSome = true) (h2 : it.file_path.isSome = true)
    (h3 : it.link.isSome = true) :
    (update_video t id u now).table = putItem t id (applyUpdate it u now) ∧
    ∃ m, (update_video t id u now).result = .ok m := by
  have h1' : (applyUpdate it u now).filename.isSome = true := h1
  have h2' : (applyUpdate it u now).file_path.isSome = true := h2
  have h3' : (applyUpdate it u now).link.isSome = true := mergeField_isSome u.link it.link h3
  obtain ⟨m, hm⟩ := mkVideoMetadata_isSome id (applyUpdate it u now) h1' h2' h3'
  unfold update_video
  rw [hu, hfind]
  dsimp only
  rw [hm]
  exact ⟨rfl, some m, rfl⟩

theorem failRecord_spec (t : List (String × DynItem)) (id : String) (it : DynItem)
    (now : Nat) (msg : String) (err : RouteOutcome ProcessResponse)
    (args : Option (String × Nat))
    (h1 : it.filename.isSome = true) (h2 : it.file_path.isSome = true)
    (h3 : it.link.isSome = true) :
    failRecord (putItem t id it) id now msg err args =
      { result := err,
        table := putItem (putItem t id it) id
          (applyUpdate it { status := some VideoStatus.failed, error_message := some msg } now),
        recordCreated := true, cleanupRan := true, burnArgs := args } := by
  have hu : updateHasField
      { status := some VideoStatus.failed, error_message := some msg : VideoUpdateRequest } =
      true := rfl
  obtain ⟨htab, m, hres⟩ := update_video_existing_ok (putItem t id it) id it
    { status := some VideoStatus.failed, error_message := some msg } now hu
    (findItem_putItem t id it) h1 h2 h3
  unfold failRecord
  dsimp only
  rw [hres]
  dsimp only
  rw [htab]

theorem process_video_burn_error (jobId recordId : String) (now : Nat)
    (upload : Except String String) (probe : Option ProbeData)
    (presign : Except String String) (msg : String) (req : ProcessRequest)
    (table0 : List (String × DynItem)) :
    process_video ⟨jobId, recordId, now, true, .error msg, upload, probe, presign⟩ req table0 =
      { result := .httpError 500 ("Processing failed: " ++ msg),
        table := putItem
          (putItem table0 recordId
            (createdItem ⟨jobId, recordId, now, true, .error msg, upload, probe, presign⟩ req))
          recordId
          (applyUpdate
            (createdItem ⟨jobId, recordId, now, true, .error msg, upload, probe, presign⟩ req)
            { status := some VideoStatus.failed, error_message := some msg } now),
        recordCreated := true, cleanupRan := true,
        burnArgs := some (targetResolution req.resolution, req.crf) } :=
  failRecord_spec table0 recordId
    (createdItem ⟨jobId, recordId, now, true, .error msg, upload, probe, presign⟩ req)
    now msg (.httpError 500 ("Processing failed: " ++ msg))
    (some (targetResolution req.resolution, req.crf)) rfl rfl rfl

theorem process_video_upload_error (jobId recordId : String) (now : Nat) (bu : Unit)
    (probe : Option ProbeData) (presign : Except String String) (msg : String)
    (req : ProcessRequest) (table0 : List (String × DynItem)) :
    process_video ⟨jobId, recordId, now, true, .ok bu, .error msg, probe, presign⟩ req table0 =
      { result := .httpError 500 ("Processing failed: " ++ msg),
        table := putItem
          (putItem table0 recordId
            (createdItem ⟨jobId, recordId, now, true, .ok bu, .error msg, probe, presign⟩ req))
          recordId
          (applyUpdate
            (createdItem ⟨jobId, recordId, now, true, .ok bu, .error msg, probe, presign⟩ req)
            { status := some VideoStatus.failed, error_message := some msg } now),
        recordCreated := true, cleanupRan := true,
        burnArgs := some (targetResolution req.resolution, req.crf) } :=
  failRecord_spec table0 recordId
    (createdItem ⟨jobId, recordId, now, true, .ok bu, .error msg, probe, presign⟩ req)
    now msg (.httpError 500 ("Processing failed: " ++ msg))
    (some (targetResolution req.resolution, req.crf)) rfl rfl rfl

theorem process_video_presign_error (jobId recordId : String) (now : Nat) (bu : Unit)
    (s3uri : String) (probe : Option ProbeData) (msg : String)
    (req : ProcessRequest) (table0 : List (String × DynItem)) :
    process_video ⟨jobId, recordId, now, true, .ok bu, .ok s3uri, probe, .error msg⟩ req table0 =
      { result := .httpError 500 ("Processing failed: " ++ msg),
        table := putItem
          (putItem table0 recordId
            (createdItem ⟨jobId, recordId, now, true, .ok bu, .ok s3uri, probe, .error msg⟩ req))
          recordId
          (applyUpdate
            (createdItem ⟨jobId, recordId, now, true, .ok bu, .ok s3uri, probe, .error msg⟩ req)
            { status := some VideoStatus.failed, error_message := some msg } now),
        recordCreated := true, cleanupRan := true,
        burnArgs := some (targetResolution req.resolution, req.crf) } :=
  failRecord_spec table0 recordId
    (createdItem ⟨jobId, recordId, now, true, .ok bu, .ok s3uri, probe, .error msg⟩ req)
    now msg (.httpError 500 ("Processing failed: " ++ msg))
    (some (targetResolution req.resolution, req.crf)) rfl rfl rfl

theorem process_video_success (jobId recordId : String) (now : Nat) (bu : Unit)
    (s3uri : String) (probe : Option ProbeData) (url : String) (req : ProcessRequest)
    (table0 : List (String × DynItem)) :
    process_video ⟨jobId, recordId, now, true, .ok bu, .ok s3uri, probe, .ok url⟩ req table0 =
      { result := .ok { video_id := recordId, streaming_url := url,
                        resolution := (get_video_metadata probe).resolution,
                        duration := (get_video_metadata probe).duration,
                        file_size := (get_video_metadata probe).size },
        table := putItem
          (putItem table0 recordId
            (createdItem ⟨jobId, recordId, now, true, .ok bu, .ok s3uri, probe, .ok url⟩ req))
          recordId
          (applyUpdate
            (createdItem ⟨jobId, recordId, now, true, .ok bu, .ok s3uri, probe, .ok url⟩ req)
            (savedUpdate ⟨jobId, recordId, now, true, .ok bu, .ok s3uri, probe, .ok url⟩ req url)
            now),
        recordCreated := true, cleanupRan := true,
        burnArgs := some (targetResolution req.resolution, req.crf) } := by
  obtain ⟨htab, m, hres⟩ := update_video_existing_ok
    (putItem table0 recordId
      (createdItem ⟨jobId, recordId, now, true, .ok bu, .ok s3uri, probe, .ok url⟩ req))
    recordId
    (createdItem ⟨jobId, recordId, now, true, .ok bu, .ok s3uri, probe, .ok url⟩ req)
    (savedUpdate ⟨jobId, recordId, now, true, .ok bu, .ok s3uri, probe, .ok url⟩ req url)
    now rfl (findItem_putItem _ _ _) rfl rfl rfl
  have step1 : process_video ⟨jobId, recordId, now, true, .ok bu, .ok s3uri, probe, .ok url⟩
      req table0 =
      finishSuccess
        (update_video
          (putItem table0 recordId
            (createdItem ⟨jobId, recordId, now, true, .ok bu, .ok s3uri, probe, .ok url⟩ req))
          recordId
          (savedUpdate ⟨jobId, recordId, now, true, .ok bu, .ok s3uri, probe, .ok url⟩ req url)
          now)
        recordId now url (get_video_metadata probe)
        (some (targetResolution req.resolution, req.crf)) := rfl
  rw [step1]
  unfold finishSuccess
  rw [hres]
  dsimp only
  rw [htab]

/-- C4: once the PROCESSING record exists (the upload passed the size
    check, so `create_video` ran), every failure path updates it to a
    terminal FAILED status with a non-null error message and runs cleanup
    before the failure is re-raised as HTTP 500, and on success the record
    is SAVED — the record's state and the client-visible outcome never
    diverge, and no exception escapes the handler unturned. -/
theorem process_video_state_consistency (env : PipelineEnv) (req : ProcessRequest)
    (table0 : List (String × DynItem)) (hsize : env.sizeOk = true) :
    (process_video env req table0).recordCreated = true ∧
    (process_video env req table0).cleanupRan = true ∧
    (process_video env req table0).result ≠ .exn ∧
    ∃ it, findItem (process_video env req table0).table env.recordId = some it ∧
      ((∃ r, (process_video env req table0).result = .ok r) →
        it.status = some VideoStatus.saved) ∧
      (∀ c d, (process_video env req table0).result = .httpError c d →
        c = 500 ∧ it.status = some VideoStatus.failed ∧ it.error_message ≠ none) := by
  rcases env with ⟨jobId, recordId, now, sizeOk, burn, upload, probe, presign⟩
  dsimp only at hsize
  subst hsize
  cases burn with
  | error msg =>
    rw [process_video_burn_error]
    refine ⟨rfl, rfl, fun h => RouteOutcome.noConfusion h, _, findItem_putItem _ _ _, ?_, ?_⟩
    · rintro ⟨r, hr⟩
      exact RouteOutcome.noConfusion hr
    · intro c d hcd
      injection hcd with hc hd
      exact ⟨hc.symm, rfl, fun h => Option.noConfusion h⟩
  | ok bu =>
    cases upload with
    | error msg =>
      rw [process_video_upload_error]
      refine ⟨rfl, rfl, fun h => RouteOutcome.noConfusion h, _, findItem_putItem _ _ _, ?_, ?_⟩
      · rintro ⟨r, hr⟩
        exact RouteOutcome.noConfusion hr
      · intro c d hcd
        injection hcd with hc hd
        exact ⟨hc.symm, rfl, fun h => Option.noConfusion h⟩
    | ok s3uri =>
      cases presign with
      | error msg =>
        rw [process_video_presign_error]
        refine ⟨rfl, rfl, fun h => RouteOutcome.noConfusion h, _, findItem_putItem _ _ _, ?_, ?_⟩
        · rintro ⟨r, hr⟩
          exact RouteOutcome.noConfusion hr
        · intro c d hcd
          injection hcd with hc hd
          exact ⟨hc.symm, rfl, fun h => Option.noConfusion h⟩
      | ok url =>
        rw [process_video_success]
        refine ⟨rfl, rfl, fun h => RouteOutcome.noConfusion h, _, findItem_putItem _ _ _, ?_, ?_⟩
        · intro _
          rfl
        · intro c d hcd
          exact RouteOutcome.noConfusion hcd

/-- Witness for C4 at a concrete failing pipeline run. -/
theorem process_video_state_consistency_witness :
    (process_video
        ⟨"job_1", "vid1", 7, true, .error "encode failed", .ok "s3://x", none, .ok "url"⟩
        { videoSize := 1000, srtContent := "", resolution := "720p", crf := 23 }
        []).cleanupRan = true ∧
    ∃ it, findItem (process_video
        ⟨"job_1", "vid1", 7, true, .error "encode failed", .ok "s3://x", none, .ok "url"⟩
        { videoSize := 1000, srtContent := "", resolution := "720p", crf := 23 }
        []).table "vid1" = some it ∧
      it.status = some VideoStatus.failed ∧ it.error_message ≠ none := by
  obtain ⟨-, hc, -, it, hfind, -, himp⟩ := process_video_state_consistency
    ⟨"job_1", "vid1", 7, true, .error "encode failed", .ok "s3://x", none, .ok "url"⟩
    { videoSize := 1000, srtContent := "", resolution := "720p", crf := 23 } [] rfl
  have hres : (process_video
      ⟨"job_1", "vid1", 7, true, .error "encode failed", .ok "s3://x", none, .ok "url"⟩
      { videoSize := 1000, srtContent := "", resolution := "720p", crf := 23 }
      []).result = .httpError 500 "Processing failed: encode failed" := by decide
  obtain ⟨-, hst, herr⟩ := himp 500 "Processing failed: encode failed" hres
  exact ⟨hc, it, hfind, hst, herr⟩

/-- C5 counterexample: a FAILED record reached through the pipeline still
    has `file_size` populated (the uploaded size recorded at creation), so
    "fileSizeBytes, duration and resolution are populated iff SAVED — a
    PROCESSING or FAILED record has none of them" is false on the code. -/
theorem populated_iff_saved_counterexample :
    (findItem (process_video
        ⟨"job_2", "vid2", 7, true, .error "boom", .ok "s", none, .ok "u"⟩
        { videoSize := 1000, srtContent := "", resolution := "360p", crf := 23 }
        []).table "vid2").map (fun it => (it.status, it.file_size)) =
      some (some VideoStatus.failed, some 1000) := by decide

/-- C5 (amended): for the record managed by a pipeline run, `duration`
    and `resolution` are populated iff the status is SAVED, while
    `file_size` is populated in every status: the freshly created record
    (status PROCESSING) already carries the uploaded size and no
    duration/resolution, a FAILED record keeps that size, and a SAVED
    record carries the probed values. -/
theorem populated_fields_invariant (env : PipelineEnv) (req : ProcessRequest)
    (table0 : List (String × DynItem)) (hsize : env.sizeOk = true) :
    ((createdItem env req).status = some VideoStatus.processing ∧
      (createdItem env req).file_size ≠ none ∧
      (createdItem env req).duration = none ∧ (createdItem env req).resolution = none) ∧
    ∃ it, findItem (process_video env req table0).table env.recordId = some it ∧
      it.file_size ≠ none ∧
      (it.status = some VideoStatus.saved ↔ it.duration ≠ none) ∧
      (it.status = some VideoStatus.saved ↔ it.resolution ≠ none) := by
  rcases env with ⟨jobId, recordId, now, sizeOk, burn, upload, probe, presign⟩
  dsimp only at hsize
  subst hsize
  refine ⟨⟨rfl, fun h => Option.noConfusion h, rfl, rfl⟩, ?_⟩
  cases burn with
  | error msg =>
    rw [process_video_burn_error]
    refine ⟨_, findItem_putItem _ _ _, fun h => Option.noConfusion h, ?_, ?_⟩
    · constructor
      · intro h
        injection h with h'
        exact VideoStatus.noConfusion h'
      · intro h
        exact absurd rfl h
    · constructor
      · intro h
        injection h with h'
        exact VideoStatus.noConfusion h'
      · intro h
        exact absurd rfl h
  | ok bu =>
    cases upload with
    | error msg =>
      rw [process_video_upload_error]
      refine ⟨_, findItem_putItem _ _ _, fun h => Option.noConfusion h, ?_, ?_⟩
      · constructor
        · intro h
          injection h with h'
          exact VideoStatus.noConfusion h'
        · intro h
          exact absurd rfl h
      · constructor
        · intro h
          injection h with h'
          exact VideoStatus.noConfusion h'
        · intro h
          exact absurd rfl h
    | ok s3uri =>
      cases presign with
      | error msg =>
        rw [process_video_presign_error]
        refine ⟨_, findItem_putItem _ _ _, fun h => Option.noConfusion h, ?_, ?_⟩
        · constructor
          · intro h
            injection h with h'
            exact VideoStatus.noConfusion h'
          · intro h
            exact absurd rfl h
        · constructor
          · intro h
            injection h with h'
            exact VideoStatus.noConfusion h'
          · intro h
            exact absurd rfl h
      | ok url =>
        rw [process_video_success]
        refine ⟨_, findItem_putItem _ _ _, fun h => Option.noConfusion h, ?_, ?_⟩
        · exact ⟨fun _ => fun h => Option.noConfusion h, fun _ => rfl⟩
        · exact ⟨fun _ => fun h => Option.noConfusion h, fun _ => rfl⟩

/-- Witness for the amended C5 at a concrete successful pipeline run. -/
theorem populated_fields_invariant_witness :
    ∃ it, findItem (process_video
        ⟨"job_3", "vid3", 7, true, .ok (), .ok "s", some ⟨12, 2048, 1280, 720, some "h264"⟩,
          .ok "u"⟩
        { videoSize := 500, srtContent := "x", resolution := "720p", crf := 20 }
        []).table "vid3" = some it ∧
      it.file_size ≠ none ∧
      (it.status = some VideoStatus.saved ↔ it.duration ≠ none) ∧
      (it.status = some VideoStatus.saved ↔ it.resolution ≠ none) :=
  (populated_fields_invariant
    ⟨"job_3", "vid3", 7, true, .ok (), .ok "s", some ⟨12, 2048, 1280, 720, some "h264"⟩,
      .ok "u"⟩
    { videoSize := 500, srtContent := "x", resolution := "720p", crf := 20 } [] rfl).2

/-- C7: a zero-length subtitle payload is not an error: SRT validation
    reports "no subtitles" instead of failing, the ffmpeg command built
    for an empty SRT carries no subtitles filter — only the scale filter
    at the requested resolution plus the crf/preset/codec parameters —
    and a pipeline run with an empty SRT still completes successfully,
    the encode step receiving the mapped target resolution and the
    requested quality. -/
theorem empty_subtitles_not_error (v f o res preset codec : String) (crf : Nat)
    (env : PipelineEnv) (req : ProcessRequest) (table0 : List (String × DynItem))
    (bu : Unit) (s3uri url : String)
    (hsize : env.sizeOk = true) (hburn : env.burn = .ok bu)
    (hupload : env.upload = .ok s3uri) (hpresign : env.presign = .ok url)
    (_hsrt : req.srtContent = "") :
    validateSrtContent "" = false ∧
    buildBurnCmd v "" f o res crf preset codec =
      ["ffmpeg", "-y", "-i", v, "-vf", "scale=" ++ res, "-c:v", codec, "-crf",
        toString crf, "-preset", preset, "-c:a", "aac", "-b:a", "128k", o] ∧
    (process_video env req table0).burnArgs =
      some (targetResolution req.resolution, req.crf) ∧
    (∃ r, (process_video env req table0).result = .ok r) := by
  have hval : validateSrtContent "" = false := by decide
  refine ⟨hval, ?_, ?_, ?_⟩
  · simp [buildBurnCmd, hval]
  · rcases env with ⟨jobId, recordId, now, sizeOk, burn, upload, probe, presign⟩
    dsimp only at hsize hburn hupload hpresign
    subst hsize
    subst hburn
    subst hupload
    subst hpresign
    rw [process_video_success]
  · rcases env with ⟨jobId, recordId, now, sizeOk, burn, upload, probe, presign⟩
    dsimp only at hsize hburn hupload hpresign
    subst hsize
    subst hburn
    subst hupload
    subst hpresign
    rw [process_video_success]
    exact ⟨_, rfl⟩

/-- Witness for C7 at a concrete empty-subtitle run. -/
theorem empty_subtitles_not_error_witness :
    validateSrtContent "" = false ∧
    buildBurnCmd "in.mp4" "" "sub.srt" "out.mp4" "1280x720" 23 "medium" "libx264" =
      ["ffmpeg", "-y", "-i", "in.mp4", "-vf", "scale=" ++ "1280x720", "-c:v", "libx264",
        "-crf", toString 23, "-preset", "medium", "-c:a", "aac", "-b:a", "128k", "out.mp4"] ∧
    (process_video ⟨"job_4", "vid4", 7, true, .ok (), .ok "s", none, .ok "u"⟩
        { videoSize := 10, srtContent := "", resolution := "720p", crf := 23 }
        []).burnArgs = some (targetResolution "720p", 23) ∧
    (∃ r, (process_video ⟨"job_4", "vid4", 7, true, .ok (), .ok "s", none, .ok "u"⟩
        { videoSize := 10, srtContent := "", resolution := "720p", crf := 23 }
        []).result = .ok r) :=
  empty_subtitles_not_error "in.mp4" "sub.srt" "out.mp4" "1280x720" "medium" "libx264" 23
    ⟨"job_4", "vid4", 7, true, .ok (), .ok "s", none, .ok "u"⟩
    { videoSize := 10, srtContent := "", resolution := "720p", crf := 23 }
    [] () "s" "u" rfl rfl rfl rfl rfl

/-- C10: `get_video_metadata` is total and never raises — every
    ffprobe/parsing failure produces the fixed fallback dictionary — and
    a pipeline run whose probe fails still completes successfully,
    leaving a SAVED record whose size is 0, duration 0.0 and resolution
    the string "unknown". -/
theorem probe_fallback_saved_zero (env : PipelineEnv) (req : ProcessRequest)
    (table0 : List (String × DynItem)) (bu : Unit) (s3uri url : String)
    (hsize : env.sizeOk = true) (hburn : env.burn = .ok bu)
    (hupload : env.upload = .ok s3uri) (hpresign : env.presign = .ok url)
    (hprobe : env.probe = none) :
    get_video_metadata none =
      { duration := 0, size := 0, resolution := "unknown", codec := some "unknown" } ∧
    (∃ r, (process_video env req table0).result = .ok r ∧
      r.file_size = 0 ∧ r.duration = 0 ∧ r.resolution = "unknown") ∧
    ∃ it, findItem (process_video env req table0).table env.recordId = some it ∧
      it.status = some VideoStatus.saved ∧ it.file_size = some 0 ∧
      it.duration = some 0 ∧ it.resolution = some "unknown" := by
  rcases env with ⟨jobId, recordId, now, sizeOk, burn, upload, probe, presign⟩
  dsimp only at hsize hburn hupload hpresign hprobe
  subst hsize
  subst hburn
  subst hupload
  subst hpresign
  subst hprobe
  rw [process_video_success]
  exact ⟨rfl, ⟨_, rfl, rfl, rfl, rfl⟩, _, findItem_putItem _ _ _, rfl, rfl, rfl, rfl⟩

/-- Witness for C10 at a concrete run with a failing probe. -/
theorem probe_fallback_saved_zero_witness :
    get_video_metadata none =
      { duration := 0, size := 0, resolution := "unknown", codec := some "unknown" } ∧
    ∃ it, findItem (process_video ⟨"job_5", "vid5", 7, true, .ok (), .ok "s", none, .ok "u"⟩
        { videoSize := 10, srtContent := "a", resolution := "480p", crf := 23 }
        []).table "vid5" = some it ∧
      it.status = some VideoStatus.saved ∧ it.file_size = some 0 ∧
      it.duration = some 0 ∧ it.resolution = some "unknown" := by
  obtain ⟨hfb, -, hrec⟩ := probe_fallback_saved_zero
    ⟨"job_5", "vid5", 7, true, .ok (), .ok "s", none, .ok "u"⟩
    { videoSize := 10, srtContent := "a", resolution := "480p", crf := 23 }
    [] () "s" "u" rfl rfl rfl rfl rfl
  exact ⟨hfb, hrec⟩

end VidpAgg
